import Mathlib

/-!
Verification development for the fallen-dashboard repository.

Shallow embedding of the staff-permission resolution (src/auth.py
`check_is_staff`, src/app.py `callback` lines 175-199), the blob/relational
readers, the user-view merger, the leaderboard/rank engine, the action
outbox, the audit log, and the staff/role upserts (src/db.py), together
with theorems settling the spec claims about them.
-/

namespace FallenDashboard

/-! ## Staff-permission resolution

Configuration state feeding the four sources of src/app.py `callback`
(lines 175-199).  Discord role IDs travel as decimal strings in the app
(the identity provider returns them as strings); `role_config` stores them
as BIGINT, and `check_role_permissions` converts with `int(r)` before the
`= ANY($1)` match.  For canonical decimal IDs this is string equality, so
the embedding keys `roleConfig` by the decimal string form.
-/

structure ResolverCfg where
  /-- `ADMIN_USER_IDS` parsed by `auth.get_admin_user_ids`. -/
  adminIds : List Int
  /-- `STAFF_ROLE_IDS` parsed by `auth.get_staff_role_ids` (role-ID strings). -/
  staffRoleIds : List String
  /-- `staff_roles` table rows: `(discord_user_id, permission_tier)`. -/
  staffRoles : List (Int × Int)
  /-- `role_config` table rows: `(discord_role_id, permission_tier)`. -/
  roleConfig : List (String × Int)

/-- src/auth.py `check_is_staff` (lines 57-83): admin override, then
role-ID overlap with `STAFF_ROLE_IDS`; with an empty configured set it
returns `False` before looking at the user's roles. -/
def check_is_staff (cfg : ResolverCfg) (user_id : Int) (role_ids : List String) : Bool :=
  if user_id ∈ cfg.adminIds then true
  else if cfg.staffRoleIds = [] then false
  else role_ids.any (fun r => cfg.staffRoleIds.contains r)

/-- src/db.py `is_db_staff` (lines 466-472): exact `discord_user_id` lookup
in `staff_roles`; `(False, 0)` when no row (or on storage error). -/
def is_db_staff (cfg : ResolverCfg) (discord_user_id : Int) : Bool × Int :=
  match cfg.staffRoles.lookup discord_user_id with
  | some t => (true, t)
  | none => (false, 0)

/-- src/db.py `check_role_permissions` (lines 494-505): `(False, 0)` for an
empty role list, otherwise the maximum `permission_tier` over the
`role_config` rows whose role ID is among the user's roles. -/
def check_role_permissions (cfg : ResolverCfg) (role_ids : List String) : Bool × Int :=
  if role_ids = [] then (false, 0)
  else
    match cfg.roleConfig.filter (fun rc => decide (rc.1 ∈ role_ids)) with
    | [] => (false, 0)
    | r :: rs => (true, (rs.map Prod.snd).foldl max r.2)

/-- src/app.py `callback` lines 175-199: the four-source staff resolution
performed at login.  Mirrors the statement order exactly, including the
initial `is_staff = auth.check_is_staff(...)` at line 176 and the guarded
env fallback `if not is_staff and auth.check_is_staff(...)` at line 197. -/
def resolveStaff (cfg : ResolverCfg) (uid : Int) (role_ids : List String) : Bool × Int :=
  -- is_staff = auth.check_is_staff(uid_int, role_ids); permission_tier = 0
  let p0 : Bool × Int := (check_is_staff cfg uid role_ids, 0)
  -- 1. Admin override (env var)
  let p1 := if uid ∈ cfg.adminIds then (true, (3 : Int)) else p0
  -- 2. Database staff_roles table (manual adds)
  let dbs := is_db_staff cfg uid
  let p2 := if dbs.1 then (true, max p1.2 dbs.2) else p1
  -- 3. role_config table (auto-role mapping)
  let rcp := check_role_permissions cfg role_ids
  let p3 := if rcp.1 then (true, max p2.2 rcp.2) else p2
  -- 4. Env var STAFF_ROLE_IDS fallback
  if ¬p3.1 ∧ check_is_staff cfg uid role_ids then (true, max p3.2 2) else p3

/-- The first three sources of `resolveStaff`, without the guarded env
fallback; `resolveStaff_eq` shows the fallback branch never changes the
result. -/
def resolveCore (cfg : ResolverCfg) (uid : Int) (role_ids : List String) : Bool × Int :=
  let p0 : Bool × Int := (check_is_staff cfg uid role_ids, 0)
  let p1 := if uid ∈ cfg.adminIds then (true, (3 : Int)) else p0
  let dbs := is_db_staff cfg uid
  let p2 := if dbs.1 then (true, max p1.2 dbs.2) else p1
  let rcp := check_role_permissions cfg role_ids
  if rcp.1 then (true, max p2.2 rcp.2) else p2

/-- The env fallback at app.py line 197 is dead code: its guard demands
`not is_staff` together with `check_is_staff(...)`, but `is_staff` was
already initialized to that very call at line 176 and only ever turns
`True` afterwards. -/
theorem resolveStaff_eq (cfg : ResolverCfg) (uid : Int) (role_ids : List String) :
    resolveStaff cfg uid role_ids = resolveCore cfg uid role_ids := by
  unfold resolveStaff resolveCore
  by_cases hc : check_is_staff cfg uid role_ids <;>
    simp only [hc] <;> split <;> split <;> split <;> simp_all

theorem foldl_max_mono {a b : Int} (l : List Int) (h : a ≤ b) :
    l.foldl max a ≤ l.foldl max b := by
  induction l generalizing a b with
  | nil => exact h
  | cons x xs ih => exact ih (max_le_max h le_rfl)

/-- `cfg'` extends `cfg` by one qualifying entry in exactly one of the four
sources; for the two uniquely-keyed tables the entry's key is fresh. -/
def AddsEntry (cfg cfg' : ResolverCfg) : Prop :=
  (∃ a, cfg' = { cfg with adminIds := a :: cfg.adminIds }) ∨
  (∃ u t, cfg.staffRoles.lookup u = none ∧
    cfg' = { cfg with staffRoles := (u, t) :: cfg.staffRoles }) ∨
  (∃ r t, cfg' = { cfg with roleConfig := (r, t) :: cfg.roleConfig }) ∨
  (∃ s, cfg' = { cfg with staffRoleIds := s :: cfg.staffRoleIds })

theorem resolveCore_mono (cfg cfg' : ResolverCfg) (uid : Int) (roles : List String)
    (hA : uid ∈ cfg.adminIds → uid ∈ cfg'.adminIds)
    (hC : check_is_staff cfg uid roles = true → check_is_staff cfg' uid roles = true)
    (hDb : is_db_staff cfg' uid = is_db_staff cfg uid ∨
      (is_db_staff cfg uid = (false, 0) ∧ (is_db_staff cfg' uid).1 = true))
    (hRc : check_role_permissions cfg' roles = check_role_permissions cfg roles ∨
      ((check_role_permissions cfg roles).1 = false ∧
        (check_role_permissions cfg' roles).1 = true) ∨
      ((check_role_permissions cfg' roles).1 = true ∧
        (check_role_permissions cfg roles).2 ≤ (check_role_permissions cfg' roles).2)) :
    (resolveCore cfg uid roles).2 ≤ (resolveCore cfg' uid roles).2 ∧
    ((resolveCore cfg uid roles).1 = true → (resolveCore cfg' uid roles).1 = true) := by
  unfold resolveCore
  rcases hDb with hDb | ⟨hDb1, hDb2⟩ <;>
    rcases hRc with hRc | ⟨hRc1, hRc2⟩ | ⟨hRc1, hRc2⟩ <;>
      simp_all <;> split_ifs <;>
        simp_all <;> omega

/-- C4: the permission tier computed at login is monotonic in the configured
sources: adding one qualifying entry to the admin-ID set, the staff-role
table (fresh user), the role-config table, or the env staff role-ID set,
leaving the other sources unchanged, can only raise or preserve the tier
for a fixed user and role list, and isStaff can only go from false to true. -/
theorem claim_C4 (cfg cfg' : ResolverCfg) (uid : Int) (roles : List String)
    (h : AddsEntry cfg cfg') :
    (resolveStaff cfg uid roles).2 ≤ (resolveStaff cfg' uid roles).2 ∧
    ((resolveStaff cfg uid roles).1 = true → (resolveStaff cfg' uid roles).1 = true) := by
  rw [resolveStaff_eq, resolveStaff_eq]
  rcases h with ⟨a, rfl⟩ | ⟨u, t, hu, rfl⟩ | ⟨r, t, rfl⟩ | ⟨s, rfl⟩
  · -- new admin ID
    apply resolveCore_mono
    · exact fun hm => List.mem_cons_of_mem _ hm
    · intro hch
      unfold check_is_staff at hch ⊢
      by_cases hm : uid ∈ cfg.adminIds <;> simp_all [List.mem_cons]
    · left; rfl
    · left; rfl
  · -- new staff_roles row for a fresh user ID
    apply resolveCore_mono
    · exact fun hm => hm
    · exact fun hch => hch
    · by_cases he : u = uid
      · subst he
        right
        refine ⟨by simp [is_db_staff, hu], ?_⟩
        simp [is_db_staff, List.lookup]
      · left
        have he' : (uid == u) = false := beq_eq_false_iff_ne.2 (fun hh => he hh.symm)
        simp [is_db_staff, List.lookup, he']
    · left; rfl
  · -- new role_config row
    apply resolveCore_mono
    · exact fun hm => hm
    · exact fun hch => hch
    · left; rfl
    · by_cases hroles : roles = []
      · left; simp [check_role_permissions, hroles]
      · by_cases hcont : r ∈ roles
        · have hfil : ((r, t) :: cfg.roleConfig).filter (fun rc => decide (rc.1 ∈ roles)) =
              (r, t) :: cfg.roleConfig.filter (fun rc => decide (rc.1 ∈ roles)) := by
            simp [List.filter_cons, hcont]
          cases hrows : cfg.roleConfig.filter (fun rc => decide (rc.1 ∈ roles)) with
          | nil =>
            right; left
            simp [check_role_permissions, if_neg hroles, hfil, hrows]
          | cons x xs =>
            right; right
            simp only [check_role_permissions, if_neg hroles, hfil, hrows,
              List.map_cons, List.foldl_cons]
            refine ⟨trivial, ?_⟩
            simpa using foldl_max_mono (xs.map Prod.snd) (le_max_right t x.2)
        · left
          simp [check_role_permissions, List.filter_cons, hcont]
  · -- new env staff role ID
    apply resolveCore_mono
    · exact fun hm => hm
    · intro hch
      unfold check_is_staff at hch ⊢
      by_cases hm : uid ∈ cfg.adminIds <;>
        simp_all [List.any_eq_true, List.mem_cons]
      obtain ⟨hne, x, hx1, hx2⟩ := hch
      exact ⟨x, hx1, Or.inr hx2⟩
    · left; rfl
    · left; rfl

theorem claim_C4_witness :
    (resolveStaff ⟨[], [], [], []⟩ 7 []).2 ≤ (resolveStaff ⟨[7], [], [], []⟩ 7 []).2 ∧
    ((resolveStaff ⟨[], [], [], []⟩ 7 []).1 = true →
      (resolveStaff ⟨[7], [], [], []⟩ 7 []).1 = true) :=
  claim_C4 ⟨[], [], [], []⟩ ⟨[7], [], [], []⟩ 7 [] (Or.inl ⟨7, rfl⟩)

/-- C1: refuted as stated — with `STAFF_ROLE_IDS = {"100"}`, empty admin set,
empty `staff_roles`, empty `role_config`, a user 5 holding role "100" resolves
to isStaff = true but permission tier 0: the env fallback that should floor
the tier at 2 (app.py line 197) is unreachable, because `is_staff` was already
set to `check_is_staff(...)` at line 176, so `not is_staff` is false whenever
the env roles overlap.  The spec and the code's own comment intend tier ≥ 2. -/
theorem claim_C1_code_bug :
    resolveStaff ⟨[], ["100"], [], []⟩ 5 ["100"] = (true, 0) := by decide

/-! ## User map, leaderboard and rank engine (src/db.py)

A profile dict's numeric attributes are modelled as an association list
from field name to `Option Int` (`none` models a JSON null, a missing key
models an absent field); the `users` map of the `main_data` blob and the
`elo` map of the `duels_data` blob are association lists in dict iteration
order, keyed by the string form of the user ID.
-/

abbrev Profile := List (String × Option Int)
abbrev Users := List (String × Profile)
abbrev EloMap := List (String × Int)

/-- `u.get(field, 0) or 0`: an absent field and a null value both count
as 0 (and `or 0` maps a stored 0 to 0). -/
def getd (u : Profile) (field : String) : Int :=
  match u.lookup field with
  | some (some n) => n
  | _ => 0

/-- src/db.py `get_user_rank` (lines 162-171); `uid = str(user_id)` and the
subject's `val` are inlined at their use sites. -/
def get_user_rank (users : Users) (elo : EloMap) (user_id : Int) (sort_by : String) : Nat :=
  match users.lookup (toString user_id) with
  | none => 0
  | some d =>
    if sort_by = "elo_rating" then
      1 + (users.map Prod.fst).countP (fun u => u != toString user_id &&
        decide ((elo.lookup u).getD 1000 > (elo.lookup (toString user_id)).getD 1000))
    else
      1 + users.countP (fun ud => ud.1 != toString user_id &&
        decide (getd ud.2 sort_by > getd d sort_by))

/-- The comparison value the claim describes: ELO-map value with default
1000 for the `elo_rating` field, otherwise the profile field with
absent/null as 0. -/
def fieldValue (elo : EloMap) (sort_by : String) (uid : String) (d : Profile) : Int :=
  if sort_by = "elo_rating" then (elo.lookup uid).getD 1000 else getd d sort_by

/-- C2: `get_user_rank` returns 0 when the string form of the user ID is not
a key of the user map; otherwise it returns 1 + the number of other users
whose value for the sort field (ELO-map value with default 1000 for
`elo_rating`, profile value with absent/null as 0 otherwise) strictly
exceeds the subject's, so a user strictly above all others has rank 1. -/
theorem claim_C2 (users : Users) (elo : EloMap) (user_id : Int) (sort_by : String) :
    (users.lookup (toString user_id) = none →
      get_user_rank users elo user_id sort_by = 0) ∧
    (∀ d, users.lookup (toString user_id) = some d →
      get_user_rank users elo user_id sort_by =
        1 + users.countP (fun ud => ud.1 != toString user_id &&
          decide (fieldValue elo sort_by ud.1 ud.2 >
            fieldValue elo sort_by (toString user_id) d))) ∧
    (∀ d, users.lookup (toString user_id) = some d →
      (∀ ud ∈ users, ud.1 ≠ toString user_id →
        fieldValue elo sort_by ud.1 ud.2 <
          fieldValue elo sort_by (toString user_id) d) →
      get_user_rank users elo user_id sort_by = 1) := by
  refine ⟨fun h => by simp [get_user_rank, h], ?_, ?_⟩
  · intro d hd
    unfold get_user_rank fieldValue
    rw [hd]
    by_cases he : sort_by = "elo_rating"
    · simp only [he, if_pos rfl, List.countP_map]
      rfl
    · simp only [if_neg he]
  · intro d hd hmax
    unfold get_user_rank
    unfold fieldValue at hmax
    rw [hd]
    by_cases he : sort_by = "elo_rating"
    · have hc : ((users.map Prod.fst).countP (fun u => u != toString user_id &&
          decide ((elo.lookup u).getD 1000 > (elo.lookup (toString user_id)).getD 1000))) = 0 := by
        rw [List.countP_map, List.countP_eq_zero]
        intro ud hud
        by_cases hu : ud.1 = toString user_id
        · simp [Function.comp, hu]
        · have hm := hmax ud hud hu
          rw [if_pos he, if_pos he] at hm
          simp only [Function.comp, Bool.and_eq_true, bne_iff_ne, ne_eq, decide_eq_true_eq,
            not_and]
          intro _
          omega
      simp only [if_pos he, hc]
    · have hc : (users.countP (fun ud => ud.1 != toString user_id &&
          decide (getd ud.2 sort_by > getd d sort_by))) = 0 := by
        rw [List.countP_eq_zero]
        intro ud hud
        by_cases hu : ud.1 = toString user_id
        · simp [hu]
        · have hm := hmax ud hud hu
          rw [if_neg he, if_neg he] at hm
          simp only [Bool.and_eq_true, bne_iff_ne, ne_eq, decide_eq_true_eq, not_and]
          intro _
          omega
      simp only [if_neg he, hc]

theorem claim_C2_witness :
    get_user_rank [("1", [("xp", some 100)]), ("2", [("xp", some 50)])] [] 2 "xp" =
      1 + ([("1", [("xp", some 100)]), ("2", [("xp", some 50)])] : Users).countP
        (fun ud => ud.1 != "2" && decide (fieldValue [] "xp" ud.1 ud.2 >
          fieldValue [] "xp" "2" [("xp", some 50)])) :=
  (claim_C2 [("1", [("xp", some 100)]), ("2", [("xp", some 50)])] [] 2 "xp").2.1
    [("xp", some 50)] (by decide)

/-! ## Stable descending sort (src/db.py `get_leaderboard`)

`lst.sort(key=..., reverse=True)` in Python is a stable descending sort;
`insertDesc`/`sortDesc` are its extensional model: an element is inserted
after the strictly-greater prefix, so ties keep source iteration order. -/

def insertDesc (key : α → Int) (x : α) : List α → List α
  | [] => [x]
  | y :: ys => if key y > key x then y :: insertDesc key x ys else x :: y :: ys

def sortDesc (key : α → Int) : List α → List α
  | [] => []
  | x :: xs => insertDesc key x (sortDesc key xs)

theorem insertDesc_perm (key : α → Int) (x : α) (l : List α) :
    List.Perm (insertDesc key x l) (x :: l) := by
  induction l with
  | nil => rfl
  | cons y ys ih =>
    unfold insertDesc
    split
    · exact ((ih.cons y).trans (List.Perm.swap x y ys))
    · rfl

theorem sortDesc_perm (key : α → Int) (l : List α) : List.Perm (sortDesc key l) l := by
  induction l with
  | nil => rfl
  | cons x xs ih => exact (insertDesc_perm key x (sortDesc key xs)).trans (ih.cons x)

theorem insertDesc_pairwise (key : α → Int) (x : α) (l : List α)
    (h : l.Pairwise (fun a b => key b ≤ key a)) :
    (insertDesc key x l).Pairwise (fun a b => key b ≤ key a) := by
  induction l with
  | nil => simp [insertDesc]
  | cons y ys ih =>
    unfold insertDesc
    rcases h with _ | ⟨hy, hys⟩
    split
    · rename_i hgt
      refine List.Pairwise.cons ?_ (ih hys)
      intro z hz
      have hz' := (insertDesc_perm key x ys).mem_iff.mp hz
      rw [List.mem_cons] at hz'
      rcases hz' with rfl | hz'
      · omega
      · exact hy z hz'
    · rename_i hle
      refine List.Pairwise.cons ?_ (List.Pairwise.cons hy hys)
      intro z hz
      rw [List.mem_cons] at hz
      rcases hz with rfl | hz
      · omega
      · have := hy z hz
        omega

theorem sortDesc_pairwise (key : α → Int) (l : List α) :
    (sortDesc key l).Pairwise (fun a b => key b ≤ key a) := by
  induction l with
  | nil => simp [sortDesc]
  | cons x xs ih => exact insertDesc_pairwise key x _ ih

theorem insertDesc_filter_key (key : α → Int) (x : α) (l : List α) (k : Int) :
    (insertDesc key x l).filter (fun a => key a == k) =
      if key x == k then x :: l.filter (fun a => key a == k)
      else l.filter (fun a => key a == k) := by
  induction l with
  | nil =>
    by_cases hxk : key x == k <;> simp [insertDesc, List.filter, hxk]
  | cons y ys ih =>
    unfold insertDesc
    split
    · rename_i hgt
      by_cases hxk : key x == k
      · have hyk : (key y == k) = false := by
          rw [beq_eq_false_iff_ne]
          rw [beq_iff_eq] at hxk
          omega
        simp [List.filter_cons, hyk, hxk, ih]
      · have hxk' : (key x == k) = false := by simp_all
        simp [List.filter_cons, ih, hxk']
    · by_cases hxk : key x == k <;> simp [List.filter_cons, hxk]

theorem sortDesc_filter_key (key : α → Int) (l : List α) (k : Int) :
    (sortDesc key l).filter (fun a => key a == k) =
      l.filter (fun a => key a == k) := by
  induction l with
  | nil => rfl
  | cons x xs ih =>
    unfold sortDesc
    rw [insertDesc_filter_key]
    by_cases hxk : key x == k <;> simp [List.filter_cons, hxk, ih]

/-- The `allowed` set of src/db.py `get_leaderboard` (lines 146-148). -/
def allowed_sort_fields : List String :=
  ["xp", "level", "coins", "elo_rating", "voice_time", "messages",
   "wins", "raid_wins", "raid_participation", "weekly_xp", "monthly_xp",
   "training_attendance", "tryout_attendance"]

/-- Sort key of a decorated leaderboard entry: `x.get(sort_by, 0) or 0`
after `x["elo_rating"]` was overwritten with the ELO-map value (default
1000); `or 0` is the identity on integers, since it only remaps 0 to 0. -/
def lbKey (elo : EloMap) (sort_by : String) (ud : String × Profile) : Int :=
  if sort_by = "elo_rating" then (elo.lookup ud.1).getD 1000 else getd ud.2 sort_by

/-- src/db.py `get_leaderboard` (lines 145-160): decorate every user, sort
descending by the requested field with Python's stable sort, then slice
`lst[offset : offset + limit]`.  The decoration with `user_id` and
`avatar_url` does not feed the sort key, so entries stay `(uid, profile)`
pairs here. -/
def get_leaderboard (users : Users) (elo : EloMap) (sort_by : String)
    (limit offset : Nat) : Users :=
  let sb := if sort_by ∈ allowed_sort_fields then sort_by else "xp"
  ((sortDesc (lbKey elo sb) users).drop offset).take limit

/-- The effective sort field after the allow-list check. -/
def effField (sort_by : String) : String :=
  if sort_by ∈ allowed_sort_fields then sort_by else "xp"

/-- C3: `get_leaderboard` returns exactly the offset/limit slice of the full
user set sorted descending by the requested field's numeric value
(absent/null as 0), the full sorted sequence being a permutation of the
source map that is pairwise descending and keeps ties in source iteration
order; an unlisted sort field gives the same result as requesting "xp". -/
theorem claim_C3 (users : Users) (elo : EloMap) (sort_by : String)
    (limit offset : Nat) :
    (sort_by ∉ allowed_sort_fields →
      get_leaderboard users elo sort_by limit offset =
        get_leaderboard users elo "xp" limit offset) ∧
    get_leaderboard users elo sort_by limit offset =
      ((sortDesc (lbKey elo (effField sort_by)) users).drop offset).take limit ∧
    List.Perm (sortDesc (lbKey elo (effField sort_by)) users) users ∧
    (sortDesc (lbKey elo (effField sort_by)) users).Pairwise
      (fun a b => lbKey elo (effField sort_by) b ≤ lbKey elo (effField sort_by) a) ∧
    (∀ k : Int,
      (sortDesc (lbKey elo (effField sort_by)) users).filter
          (fun a => lbKey elo (effField sort_by) a == k) =
        users.filter (fun a => lbKey elo (effField sort_by) a == k)) := by
  refine ⟨?_, ?_, sortDesc_perm _ _, sortDesc_pairwise _ _, fun k => sortDesc_filter_key _ _ k⟩
  · intro hna
    unfold get_leaderboard
    rw [if_neg hna, if_pos (by simp [allowed_sort_fields])]
  · unfold get_leaderboard effField
    rfl

theorem claim_C3_witness :
    get_leaderboard [("1", [("xp", some 5)]), ("2", [("xp", some 9)])] [] "bogus" 10 0 =
      get_leaderboard [("1", [("xp", some 5)]), ("2", [("xp", some 9)])] [] "xp" 10 0 :=
  (claim_C3 [("1", [("xp", some 5)]), ("2", [("xp", some 9)])] [] "bogus" 10 0).1
    (by decide)

/-! ## Action outbox, audit log, applications (src/db.py)

Stateful storage is passed explicitly; a `fail : Bool` oracle models a
raising storage layer inside each `try` block, and an `Except` value models
whether an exception escapes to the caller.  `created_seq` models the
`created_at TIMESTAMP DEFAULT NOW()` column as a monotone clock tied to the
SERIAL counter, so `ORDER BY created_at DESC` is a descending sort on it. -/

structure OutboxRow where
  id : Nat
  action_type : String
  target_user_id : Int
  staff_id : Int
  staff_name : String
  params : String
  status : String
  result : Option String
  created_seq : Nat
deriving Repr, DecidableEq

structure OutboxDb where
  rows : List OutboxRow
  nextId : Nat
deriving Repr, DecidableEq

/-- Well-formedness the SERIAL column guarantees: ids and insertion clocks
of stored rows are below the counter, and the counter starts at 1. -/
def OutboxDb.WF (db : OutboxDb) : Prop :=
  1 ≤ db.nextId ∧ ∀ r ∈ db.rows, r.id < db.nextId ∧ r.created_seq < db.nextId

/-- Body of the `try` in src/db.py `queue_action` (lines 408-425): the
`INSERT ... RETURNING id` appends a row with `status DEFAULT 'pending'`
and yields the generated SERIAL id. -/
def queueInsert (fail : Bool) (db : OutboxDb) (action_type : String)
    (target_user_id staff_id : Int) (staff_name params : String) :
    Except String (OutboxDb × Nat) :=
  if fail then .error "storage failure"
  else
    .ok ({ rows := db.rows ++
             [{ id := db.nextId, action_type := action_type,
                target_user_id := target_user_id, staff_id := staff_id,
                staff_name := staff_name, params := params, status := "pending",
                result := none, created_seq := db.nextId }],
           nextId := db.nextId + 1 }, db.nextId)

/-- src/db.py `queue_action`: on any storage exception the error is printed
and the caller gets 0 with the state unchanged. -/
def queue_action (fail : Bool) (db : OutboxDb) (action_type : String)
    (target_user_id staff_id : Int) (staff_name params : String) : OutboxDb × Nat :=
  match queueInsert fail db action_type target_user_id staff_id staff_name params with
  | .ok (db', i) => (db', i)
  | .error _ => (db, 0)

/-- src/db.py `get_pending_actions` (lines 427-428), through `_qall`:
`ORDER BY created_at DESC LIMIT $1`, empty list on storage failure. -/
def get_pending_actions (fail : Bool) (db : OutboxDb) (limit : Nat) : List OutboxRow :=
  if fail then []
  else (sortDesc (fun r => (r.created_seq : Int)) db.rows).take limit

/-- src/db.py `get_action_history` (lines 430-434), through `_qall`: a
truthy `target_id` (so neither `None` nor 0) filters on `target_user_id`. -/
def get_action_history (fail : Bool) (db : OutboxDb) (target_id : Option Int)
    (limit : Nat) : List OutboxRow :=
  if fail then []
  else
    match target_id with
    | some t =>
      if t != 0 then
        (sortDesc (fun r => (r.created_seq : Int))
          (db.rows.filter (fun r => r.target_user_id == t))).take limit
      else (sortDesc (fun r => (r.created_seq : Int)) db.rows).take limit
    | none => (sortDesc (fun r => (r.created_seq : Int)) db.rows).take limit

structure AuditRow where
  staff_id : Int
  staff_name : String
  action : String
  target_id : Option Int
  details : Option String
deriving Repr, DecidableEq

abbrev AuditDb := List AuditRow

/-- Body of the `try` in src/db.py `add_audit` (lines 384-391). -/
def auditInsert (fail : Bool) (db : AuditDb) (staff_id : Int)
    (staff_name action : String) (target_id : Option Int)
    (details : Option String) : Except String AuditDb :=
  if fail then .error "storage failure"
  else .ok (db ++ [{ staff_id := staff_id, staff_name := staff_name,
                     action := action, target_id := target_id, details := details }])

/-- src/db.py `add_audit`: best-effort append.  Every exception is caught
and only printed; the function returns normally either way, so the second
component (what escapes to the caller) is always `.ok ()`. -/
def add_audit (fail : Bool) (db : AuditDb) (staff_id : Int)
    (staff_name action : String) (target_id : Option Int)
    (details : Option String) : AuditDb × Except String Unit :=
  match auditInsert fail db staff_id staff_name action target_id details with
  | .ok db' => (db', .ok ())
  | .error _ => (db, .ok ())

structure AppRow where
  user_id : Int
  position_id : Int
  answers : String
  status : String
deriving Repr, DecidableEq

/-- src/db.py `submit_application` (lines 372-381): True on success, False
when the INSERT raises. -/
def submit_application (fail : Bool) (db : List AppRow) (user_id position_id : Int)
    (answers : String) : List AppRow × Bool :=
  if fail then (db, false)
  else (db ++ [{ user_id := user_id, position_id := position_id,
                 answers := answers, status := "applied" }], true)

theorem insertDesc_cons (key : α → Int) (a y : α) (ys : List α) :
    insertDesc key a (y :: ys) =
      if key y > key a then y :: insertDesc key a ys else a :: y :: ys := rfl

theorem sortDesc_append_max (key : α → Int) (x : α) (l : List α)
    (h : ∀ y ∈ l, key y < key x) :
    sortDesc key (l ++ [x]) = x :: sortDesc key l := by
  induction l with
  | nil => rfl
  | cons a as ih =>
    have ha := h a (by simp)
    show insertDesc key a (sortDesc key (as ++ [x])) = x :: insertDesc key a (sortDesc key as)
    rw [ih (fun y hy => h y (by simp [hy]))]
    rw [insertDesc_cons, if_pos ha]

theorem mem_take_sortDesc_append (key : α → Int) (x : α) (l : List α) (n : Nat)
    (hn : 0 < n) (h : ∀ y ∈ l, key y < key x) :
    x ∈ (sortDesc key (l ++ [x])).take n := by
  rw [sortDesc_append_max key x l h]
  cases n with
  | zero => omega
  | succ m => simp [List.take_succ_cons]

/-- C5: a successful enqueue returns a positive SERIAL id distinct from the
id of every previously stored action, preserves well-formedness, and the
new action — with that id, the requested target and status "pending" —
appears both in `get_action_history` for the target and in
`get_pending_actions`. -/
theorem claim_C5 (db : OutboxDb) (action_type : String) (target staff : Int)
    (staff_name params : String) (hwf : db.WF) :
    0 < (queue_action false db action_type target staff staff_name params).2 ∧
    (∀ r ∈ db.rows,
      r.id ≠ (queue_action false db action_type target staff staff_name params).2) ∧
    (queue_action false db action_type target staff staff_name params).1.WF ∧
    ∃ row,
      row ∈ get_action_history false
        (queue_action false db action_type target staff staff_name params).1
        (some target) 30 ∧
      row ∈ get_pending_actions false
        (queue_action false db action_type target staff staff_name params).1 50 ∧
      row.id = (queue_action false db action_type target staff staff_name params).2 ∧
      row.target_user_id = target ∧ row.status = "pending" := by
  have hq : queue_action false db action_type target staff staff_name params =
      ({ rows := db.rows ++
           [{ id := db.nextId, action_type := action_type, target_user_id := target,
              staff_id := staff, staff_name := staff_name, params := params,
              status := "pending", result := none, created_seq := db.nextId }],
         nextId := db.nextId + 1 }, db.nextId) := rfl
  rw [hq]
  dsimp only [OutboxDb.WF]
  have hseq : ∀ y ∈ db.rows, (y.created_seq : Int) < ((db.nextId : Nat) : Int) := by
    intro y hy
    exact_mod_cast (hwf.2 y hy).2
  refine ⟨hwf.1, ?_, ?_, ?_⟩
  · intro r hr
    have := (hwf.2 r hr).1
    omega
  · refine ⟨by omega, ?_⟩
    intro r hr
    rw [List.mem_append, List.mem_singleton] at hr
    rcases hr with hr | rfl
    · have := hwf.2 r hr
      exact ⟨by omega, by omega⟩
    · refine ⟨?_, ?_⟩ <;> show db.nextId < db.nextId + 1 <;> omega
  · refine
      ⟨{ id := db.nextId, action_type := action_type, target_user_id := target,
         staff_id := staff, staff_name := staff_name, params := params,
         status := "pending", result := none, created_seq := db.nextId },
       ?_, ?_, rfl, rfl, rfl⟩
    · have hh : get_action_history false
          ({ rows := db.rows ++
               [{ id := db.nextId, action_type := action_type, target_user_id := target,
                  staff_id := staff, staff_name := staff_name, params := params,
                  status := "pending", result := none, created_seq := db.nextId }],
             nextId := db.nextId + 1 } : OutboxDb) (some target) 30 =
          if target != 0 then
            (sortDesc (fun r => (r.created_seq : Int))
              ((db.rows ++
                 [({ id := db.nextId, action_type := action_type, target_user_id := target,
                     staff_id := staff, staff_name := staff_name, params := params,
                     status := "pending", result := none,
                     created_seq := db.nextId } : OutboxRow)]).filter
                (fun r => r.target_user_id == target))).take 30
          else
            (sortDesc (fun r => (r.created_seq : Int))
              (db.rows ++
                 [{ id := db.nextId, action_type := action_type, target_user_id := target,
                    staff_id := staff, staff_name := staff_name, params := params,
                    status := "pending", result := none, created_seq := db.nextId }])).take 30 := rfl
      rw [hh]
      by_cases ht : target = 0
      · simp only [ht, bne_self_eq_false, if_neg Bool.false_ne_true]
        exact mem_take_sortDesc_append _ _ _ 30 (by omega) hseq
      · have hbne : (target != 0) = true := by simp [ht]
        rw [if_pos hbne, List.filter_append]
        have hfr : List.filter (fun r => r.target_user_id == target)
            [({ id := db.nextId, action_type := action_type, target_user_id := target,
                staff_id := staff, staff_name := staff_name, params := params,
                status := "pending", result := none, created_seq := db.nextId } : OutboxRow)] =
            [{ id := db.nextId, action_type := action_type, target_user_id := target,
               staff_id := staff, staff_name := staff_name, params := params,
               status := "pending", result := none, created_seq := db.nextId }] := by
          simp [List.filter]
        rw [hfr]
        exact mem_take_sortDesc_append _ _ _ 30 (by omega)
          (fun y hy => hseq y (List.mem_filter.mp hy).1)
    · exact mem_take_sortDesc_append _ _ _ 50 (by omega) hseq

theorem claim_C5_witness :
    0 < (queue_action false ⟨[], 1⟩ "ban" 55 9 "Mod" "reason=spam").2 ∧
    (∀ r ∈ (⟨[], 1⟩ : OutboxDb).rows,
      r.id ≠ (queue_action false ⟨[], 1⟩ "ban" 55 9 "Mod" "reason=spam").2) ∧
    (queue_action false ⟨[], 1⟩ "ban" 55 9 "Mod" "reason=spam").1.WF ∧
    ∃ row,
      row ∈ get_action_history false
        (queue_action false ⟨[], 1⟩ "ban" 55 9 "Mod" "reason=spam").1 (some 55) 30 ∧
      row ∈ get_pending_actions false
        (queue_action false ⟨[], 1⟩ "ban" 55 9 "Mod" "reason=spam").1 50 ∧
      row.id = (queue_action false ⟨[], 1⟩ "ban" 55 9 "Mod" "reason=spam").2 ∧
      row.target_user_id = 55 ∧ row.status = "pending" :=
  claim_C5 ⟨[], 1⟩ "ban" 55 9 "Mod" "reason=spam" ⟨le_refl 1, by simp⟩

/-- C6: refuted as stated — the audit write path does not surface storage
failure.  A raising storage layer inside `add_audit` writes nothing, yet the
caller observes exactly the same outcome as on success (a normal return with
no value), so the failure is swallowed, not distinguishable from success. -/
theorem claim_C6_counterexample :
    (add_audit true [] 9 "Mod" "ban" (some 55) none).2 =
      (add_audit false [] 9 "Mod" "ban" (some 55) none).2 ∧
    (add_audit true [] 9 "Mod" "ban" (some 55) none).1 = [] ∧
    (add_audit false [] 9 "Mod" "ban" (some 55) none).1 ≠ [] := by
  refine ⟨rfl, rfl, ?_⟩
  simp [add_audit, auditInsert]

/-- C6 (amended): of the three write paths, enqueue and application submit
surface storage failure through a caller-distinguishable result — 0 instead
of a positive id, `false` instead of `true` — while the audit append
deliberately swallows failure (see C7). -/
theorem claim_C6_amended (db : OutboxDb) (apps : List AppRow)
    (action_type : String) (target staff user_id position_id : Int)
    (staff_name params answers : String) (hwf : db.WF) :
    (queue_action true db action_type target staff staff_name params).2 = 0 ∧
    0 < (queue_action false db action_type target staff staff_name params).2 ∧
    (submit_application true apps user_id position_id answers).2 = false ∧
    (submit_application false apps user_id position_id answers).2 = true := by
  exact ⟨rfl, hwf.1, rfl, rfl⟩

theorem claim_C6_amended_witness :
    (queue_action true ⟨[], 1⟩ "ban" 55 9 "Mod" "reason=spam").2 = 0 ∧
    0 < (queue_action false ⟨[], 1⟩ "ban" 55 9 "Mod" "reason=spam").2 ∧
    (submit_application true [] 4 2 "answers").2 = false ∧
    (submit_application false [] 4 2 "answers").2 = true :=
  claim_C6_amended ⟨[], 1⟩ [] "ban" 55 9 4 2 "Mod" "reason=spam" "answers"
    ⟨le_refl 1, by simp⟩

/-- C7: `add_audit` never propagates an exception to its caller — for every
input and every storage behavior it returns normally (the escape channel is
always `.ok ()`), and a failed write simply leaves the audit table
unchanged, so the primary staff action can still succeed. -/
theorem claim_C7 (fail : Bool) (db : AuditDb) (staff_id : Int)
    (staff_name action : String) (target_id : Option Int) (details : Option String) :
    (add_audit fail db staff_id staff_name action target_id details).2 = .ok () ∧
    (fail = true →
      (add_audit fail db staff_id staff_name action target_id details).1 = db) := by
  cases fail <;> simp [add_audit, auditInsert]

theorem claim_C7_witness :
    (add_audit true [] 9 "Mod" "warn" (some 55) (some "spam")).2 = .ok () ∧
    (true = true → (add_audit true [] 9 "Mod" "warn" (some 55) (some "spam")).1 = []) :=
  claim_C7 true [] 9 "Mod" "warn" (some 55) (some "spam")

/-! ## Blob store reader (src/db.py `_blob`, `_main`, `_duels`, `_warnings`)

The stored `json_data` value is a schemaless JSON document.  A fetch can
fail (connection/query error), find no row, find a falsy data value, find
stored text that `json.loads` rejects, find truthy text that decodes, or
find an already-structured value.  The `Except` result models whether an
exception escapes the loader. -/

inductive JVal where
  | null
  | num (n : Int)
  | str (s : String)
  | arr (xs : List JVal)
  | obj (kvs : List (String × JVal))

/-- Python truthiness of a JSON value: null, 0, "", [] and an empty object
are falsy. -/
def JVal.truthy : JVal → Bool
  | .null => false
  | .num n => n != 0
  | .str s => s != ""
  | .arr xs => !xs.isEmpty
  | .obj kvs => !kvs.isEmpty

inductive FetchR where
  | err
  | noRow
  | nullData
  | badText (s : String)
  | jsonText (v : JVal)
  | raw (v : JVal)

/-- Body of the `try` in src/db.py `_blob` (lines 55-64): `fetchrow`, the
`if row and row["data"]` guard, and `json.loads` for text data (`jsonText`
carries a truthy text's decoded value; an undecodable text raises). -/
def blobTry (store : String → FetchR) (key : String) : Except String JVal :=
  match store key with
  | .err => .error "storage"
  | .noRow => .ok (.obj [])
  | .nullData => .ok (.obj [])
  | .badText _ => .error "json.loads"
  | .jsonText v => .ok v
  | .raw v => .ok (if v.truthy then v else .obj [])

/-- src/db.py `_blob`: any exception is printed and swallowed, and the
loader answers the empty object. -/
def _blob (store : String → FetchR) (key : String) : Except String JVal :=
  match blobTry store key with
  | .ok v => .ok v
  | .error _ => .ok (.obj [])

/-- `a or b` on JSON values. -/
def pyOrJ (a b : JVal) : JVal := if a.truthy then a else b

def mainDefault : JVal := .obj [("users", .obj []), ("roster", .arr [])]

def duelsDefault : JVal := .obj [("elo", .obj []), ("duel_history", .arr [])]

def warningsDefault : JVal := .obj [("users", .obj []), ("recent_warnings", .arr [])]

/-- src/db.py `_main` (lines 66-67). -/
def _main (store : String → FetchR) : Except String JVal :=
  match _blob store "main_data" with
  | .ok v => .ok (pyOrJ v mainDefault)
  | .error e => .error e

/-- src/db.py `_duels` (lines 69-70). -/
def _duels (store : String → FetchR) : Except String JVal :=
  match _blob store "duels_data" with
  | .ok v => .ok (pyOrJ v duelsDefault)
  | .error e => .error e

/-- src/db.py `_warnings` (lines 72-73). -/
def _warnings (store : String → FetchR) : Except String JVal :=
  match _blob store "warnings_data" with
  | .ok v => .ok (pyOrJ v warningsDefault)
  | .error e => .error e

/-- Body of the `try` in src/db.py `_qall` (lines 78-83). -/
def qallTry (fail : Bool) (rows : List ρ) : Except String (List ρ) :=
  if fail then .error "storage" else .ok rows

/-- src/db.py `_qall`: a bare `except` answers the empty list. -/
def _qall (fail : Bool) (rows : List ρ) : Except String (List ρ) :=
  match qallTry fail rows with
  | .ok rs => .ok rs
  | .error _ => .ok []

/-- Body of the `try` in src/db.py `_qone` (lines 85-91). -/
def qoneTry (fail : Bool) (row : Option ρ) : Except String (Option ρ) :=
  if fail then .error "storage" else .ok row

/-- src/db.py `_qone`: a bare `except` answers `None`. -/
def _qone (fail : Bool) (row : Option ρ) : Except String (Option ρ) :=
  match qoneTry fail row with
  | .ok r => .ok r
  | .error _ => .ok none

/-- A fetch outcome that is a row absence, an undecodable document, or a
storage error. -/
def FetchFailure (f : FetchR) : Prop :=
  f = .err ∨ f = .noRow ∨ f = .nullData ∨ ∃ s, f = .badText s

/-- C8: the blob loaders never raise — `_blob` always returns normally, and
on a missing row, falsy/undecodable data or a storage error it answers the
empty object, which the typed wrappers turn into the documented defaults:
empty user map and roster for main data, empty ELO map and duel history for
duel data, empty warning structures for warning data.  The relational read
helpers likewise swallow storage errors into an empty list / `None`. -/
theorem claim_C8 {ρ : Type} (store : String → FetchR) (key : String)
    (rows : List ρ) (row : Option ρ) :
    (_blob store key).isOk = true ∧
    (FetchFailure (store key) → _blob store key = .ok (.obj [])) ∧
    (FetchFailure (store "main_data") → _main store = .ok mainDefault) ∧
    (FetchFailure (store "duels_data") → _duels store = .ok duelsDefault) ∧
    (FetchFailure (store "warnings_data") → _warnings store = .ok warningsDefault) ∧
    (_qall true rows).isOk = true ∧ _qall true rows = .ok [] ∧
    (_qone true row).isOk = true ∧ _qone true row = .ok none := by
  have hblob : ∀ k, FetchFailure (store k) → _blob store k = .ok (.obj []) := by
    intro k hk
    rcases hk with hk | hk | hk | ⟨s, hk⟩ <;>
      simp [_blob, blobTry, hk]
  refine ⟨?_, hblob key, ?_, ?_, ?_, rfl, rfl, rfl, rfl⟩
  · unfold _blob
    cases hb : blobTry store key <;> rfl
  · intro hf
    rw [_main, hblob "main_data" hf]
    simp [pyOrJ, JVal.truthy]
  · intro hf
    rw [_duels, hblob "duels_data" hf]
    simp [pyOrJ, JVal.truthy]
  · intro hf
    rw [_warnings, hblob "warnings_data" hf]
    simp [pyOrJ, JVal.truthy]

theorem claim_C8_witness :
    (_blob (fun _ => FetchR.err) "main_data").isOk = true ∧
    (FetchFailure ((fun _ => FetchR.err) "main_data") →
      _blob (fun _ => FetchR.err) "main_data" = .ok (.obj [])) ∧
    (FetchFailure ((fun _ => FetchR.err) "main_data") →
      _main (fun _ => FetchR.err) = .ok mainDefault) ∧
    (FetchFailure ((fun _ => FetchR.err) "duels_data") →
      _duels (fun _ => FetchR.err) = .ok duelsDefault) ∧
    (FetchFailure ((fun _ => FetchR.err) "warnings_data") →
      _warnings (fun _ => FetchR.err) = .ok warningsDefault) ∧
    (_qall true ([] : List Nat)).isOk = true ∧ _qall true ([] : List Nat) = .ok [] ∧
    (_qone true (none : Option Nat)).isOk = true ∧
    _qone true (none : Option Nat) = .ok none :=
  claim_C8 (fun _ => FetchR.err) "main_data" [] none

/-! ## User view merger (src/db.py `get_user`, lines 125-142)

`PyUser` models exactly the profile-dict keys `get_user` reads: the numeric
attributes, the stored avatar URL and the inventory id list; the wholly
empty profile dict `\x7b\x7d` therefore is the record with no attribute, no
avatar and no inventory, and it is falsy in `if not u`. -/

structure PyUser where
  attrs : List (String × Option Int) := []
  avatar_url : Option String := none
  inventory : Option (List String) := none
deriving Repr, DecidableEq

/-- Truthiness of the profile dict: `\x7b\x7d` is falsy. -/
def PyUser.truthy (u : PyUser) : Bool :=
  !(u.attrs.isEmpty && u.avatar_url.isNone && u.inventory.isNone)

structure ShopItem where
  name : String
  price : Int
  type : String
deriving Repr, DecidableEq

/-- src/db.py `SHOP_ITEMS` (lines 11-20). -/
def SHOP_ITEMS : List (String × ShopItem) :=
  [("private_tryout", ⟨"⚔️ Private Tryout Ticket", 500, "ticket"⟩),
   ("custom_role", ⟨"🎨 Custom Role Request", 2000, "ticket"⟩),
   ("custom_role_color", ⟨"🎨 Custom Role Color", 1500, "ticket"⟩),
   ("hoisted_role", ⟨"👑 Hoisted Role", 5000, "ticket"⟩),
   ("custom_level_bg", ⟨"🖼️ Custom Level Card BG", 3000, "background"⟩),
   ("elo_shield", ⟨"🛡️ ELO Shield", 1000, "consumable"⟩),
   ("training_reserve", ⟨"📋 Training Slot Reserve", 300, "consumable"⟩),
   ("coaching_session", ⟨"🎯 1v1 Coaching Session", 1500, "coaching"⟩)]

/-- A roster slot value may be stored as a number or as a string;
`str(slot)` is its decimal form either way. -/
inductive SlotV where
  | num (n : Int)
  | str (s : String)
deriving Repr, DecidableEq

def SlotV.pyStr : SlotV → String
  | .num n => toString n
  | .str s => s

abbrev Roster := List (Option SlotV)

/-- Index-carrying loop of src/db.py `get_stage_rank` (lines 118-122). -/
def stageRankAux (uid : Int) : Roster → Nat → Option Nat
  | [], _ => none
  | none :: rest, i => stageRankAux uid rest (i + 1)
  | some s :: rest, i =>
    if s.pyStr = toString uid then some (i + 1) else stageRankAux uid rest (i + 1)

/-- src/db.py `get_stage_rank`: 1-based index of the first roster slot whose
string form equals `str(uid)`, else `None`. -/
def get_stage_rank (roster : Roster) (uid : Int) : Option Nat :=
  stageRankAux uid roster 0

/-- The fixed CDN fallback avatar derived from `int(uid) % 5`;
`Int.emod` agrees with Python `%` for the positive modulus 5. -/
def defaultAvatar (uid : Int) : String :=
  "https://cdn.discordapp.com/embed/avatars/" ++ toString (uid % 5) ++ ".png"

/-- src/db.py `get_avatar_url` (lines 94-98): the stored URL when truthy,
else the CDN default (at the `get_user`/`get_leaderboard` call sites
`user["user_id"]` was just set, so it is the `user_id` argument). -/
def get_avatar_url (avatar_url : Option String) (user_id : Int) : String :=
  match avatar_url with
  | some s => if s ≠ "" then s else defaultAvatar user_id
  | none => defaultAvatar user_id

structure WarnEntry where
  category : String := ""
  reason : String := ""
  timestamp : String := ""
  expired : Bool := false
deriving Repr, DecidableEq

/-- Per-user entry of the warnings document (`warnings` and `total_points`
keys may be absent). -/
structure WarnUser where
  warnings : Option (List WarnEntry) := none
  total_points : Option Int := none
deriving Repr, DecidableEq

structure InvItem where
  id : String
  name : String
  price : Int
  type : String
deriving Repr, DecidableEq

/-- The decorated record `get_user` returns. -/
structure UserView where
  user_id : Int
  attrs : List (String × Option Int)
  elo_rating : Int
  warnings : List WarnEntry
  warning_points : Int
  stage_rank : Option Nat
  avatar_url : String
  inventory_items : List InvItem
deriving Repr, DecidableEq

/-- src/db.py `get_user` (lines 125-142): look the profile up under
`str(user_id)` (the falsy empty profile also yields `None`), then decorate
with ELO (default 1000), warnings (defaults empty/0), stage rank, avatar
URL and resolved inventory items (unknown ids become synthetic "unknown"
entries). -/
def get_user (users : List (String × PyUser)) (elo : EloMap)
    (warn_users : List (String × WarnUser)) (roster : Roster)
    (user_id : Int) : Option UserView :=
  match users.lookup (toString user_id) with
  | none => none
  | some u =>
    if !u.truthy then none
    else
      some
        { user_id := user_id
          attrs := u.attrs
          elo_rating := (elo.lookup (toString user_id)).getD 1000
          warnings := (((warn_users.lookup (toString user_id)).getD {}).warnings).getD []
          warning_points := (((warn_users.lookup (toString user_id)).getD {}).total_points).getD 0
          stage_rank := get_stage_rank roster user_id
          avatar_url := get_avatar_url u.avatar_url user_id
          inventory_items := (u.inventory.getD []).map (fun iid =>
            match SHOP_ITEMS.lookup iid with
            | some it => { id := iid, name := it.name, price := it.price, type := it.type }
            | none => { id := iid, name := iid, price := 0, type := "unknown" }) }

/-- The claim's roster-slot predicate: the slot is filled and its string
form equals the ID's string form. -/
def slotMatches (uid : Int) : Option SlotV → Bool
  | some s => s.pyStr == toString uid
  | none => false

theorem stageRankAux_eq_findIdx (uid : Int) (roster : Roster) (i : Nat) :
    stageRankAux uid roster i = (roster.findIdx? (slotMatches uid)).map (· + i + 1) := by
  induction roster generalizing i with
  | nil => rfl
  | cons slot rest ih =>
    cases slot with
    | none =>
      rw [stageRankAux, ih (i + 1), List.findIdx?_cons]
      simp only [slotMatches, cond_false]
      rw [List.findIdx?_succ]
      cases h : rest.findIdx? (slotMatches uid) <;> simp [Option.map_map] <;> omega
    | some s =>
      by_cases hs : s.pyStr = toString uid
      · rw [stageRankAux, if_pos hs, List.findIdx?_cons]
        have : slotMatches uid (some s) = true := by simp [slotMatches, hs]
        simp [this]
      · rw [stageRankAux, if_neg hs, ih (i + 1), List.findIdx?_cons]
        have : slotMatches uid (some s) = false := by simp [slotMatches, hs]
        simp only [this, cond_false]
        rw [List.findIdx?_succ]
        cases h : rest.findIdx? (slotMatches uid) <;> simp [Option.map_map] <;> omega

/-- C9 counterexample: when the user map stores the empty profile dict under
key "1", the string form of the ID is a key of the map, yet `get_user`
returns `None` — the `if not u` guard treats the falsy profile as missing,
where the claim promises a decorated record for every present key. -/
theorem claim_C9_counterexample :
    (([("1", ({} : PyUser))] : List (String × PyUser)).lookup "1" = some {}) ∧
    get_user [("1", ({} : PyUser))] [] [] [] 1 = none := by
  constructor <;> rfl

/-- C9 (amended): `get_user` returns absent when the string form of the ID
is not a key of the user map or the stored profile dict is empty (falsy);
for a present non-empty profile it returns a record with ELO from the duel
document (default 1000), warnings/points defaulting to the empty list and
0, stage rank the 1-based index of the first matching roster slot (absent
when none matches), the stored avatar URL when non-empty and otherwise the
CDN default from `uid % 5`, and inventory items in which unknown shop ids
become synthetic "unknown" entries rather than being dropped. -/
theorem claim_C9 (users : List (String × PyUser)) (elo : EloMap)
    (warn_users : List (String × WarnUser)) (roster : Roster) (user_id : Int) :
    (users.lookup (toString user_id) = none →
      get_user users elo warn_users roster user_id = none) ∧
    (∀ u, users.lookup (toString user_id) = some u → u.truthy = true →
      ∃ v, get_user users elo warn_users roster user_id = some v ∧
        v.elo_rating = (elo.lookup (toString user_id)).getD 1000 ∧
        (warn_users.lookup (toString user_id) = none →
          v.warnings = [] ∧ v.warning_points = 0) ∧
        (∀ w, warn_users.lookup (toString user_id) = some w →
          v.warnings = w.warnings.getD [] ∧ v.warning_points = w.total_points.getD 0) ∧
        v.stage_rank = (roster.findIdx? (slotMatches user_id)).map (· + 1) ∧
        (∀ s, u.avatar_url = some s → s ≠ "" → v.avatar_url = s) ∧
        ((u.avatar_url = none ∨ u.avatar_url = some "") →
          v.avatar_url = defaultAvatar user_id) ∧
        v.inventory_items.length = (u.inventory.getD []).length ∧
        (∀ iid ∈ u.inventory.getD [], SHOP_ITEMS.lookup iid = none →
          ({ id := iid, name := iid, price := 0, type := "unknown" } : InvItem) ∈
            v.inventory_items)) := by
  constructor
  · intro h
    simp [get_user, h]
  · intro u hu htr
    unfold get_user
    rw [hu]
    simp only [htr, Bool.not_true, Bool.false_eq_true, if_false]
    refine ⟨_, rfl, rfl, ?_, ?_, ?_, ?_, ?_, ?_, ?_⟩
    · intro h
      simp [h]
    · intro w hw
      simp [hw]
    · show get_stage_rank roster user_id = _
      unfold get_stage_rank
      rw [stageRankAux_eq_findIdx]
    · intro s hs hne
      simp [get_avatar_url, hs, hne]
    · intro h
      rcases h with h | h <;> simp [get_avatar_url, h]
    · simp
    · intro iid hi hlk
      simp only [List.mem_map]
      exact ⟨iid, hi, by simp [hlk]⟩

theorem claim_C9_witness :
    get_user [] [] [] [] 1 = none :=
  (claim_C9 [] [] [] [] 1).1 rfl

/-! ## Staff/role upserts (src/db.py `add_staff_member`, `add_role_config`) -/

structure StaffRow where
  discord_user_id : Int
  display_name : String
  permission_tier : Int
  added_by : Int
  created_at : Nat
deriving Repr, DecidableEq

/-- src/db.py `add_staff_member` (lines 456-460): `INSERT ... ON CONFLICT
(discord_user_id) DO UPDATE SET display_name = $2, permission_tier = $3`.
On conflict with the UNIQUE key PostgreSQL updates only the two listed
columns of the existing row in place; otherwise a fresh row is appended
with `created_at DEFAULT NOW()` (the `now` argument). -/
def add_staff_member (tbl : List StaffRow) (discord_user_id : Int)
    (display_name : String) (permission_tier : Int) (added_by : Int)
    (now : Nat) : List StaffRow :=
  if tbl.any (fun r => r.discord_user_id == discord_user_id) then
    tbl.map (fun r =>
      if r.discord_user_id == discord_user_id then
        { r with display_name := display_name, permission_tier := permission_tier }
      else r)
  else
    tbl ++
      [{ discord_user_id := discord_user_id, display_name := display_name,
         permission_tier := permission_tier, added_by := added_by, created_at := now }]

structure RoleRow where
  discord_role_id : Int
  role_name : String
  permission_tier : Int
  added_by : Int
  created_at : Nat
deriving Repr, DecidableEq

/-- src/db.py `add_role_config` (lines 484-488): same upsert shape keyed on
the UNIQUE `discord_role_id`, updating `role_name` and `permission_tier`. -/
def add_role_config (tbl : List RoleRow) (discord_role_id : Int)
    (role_name : String) (permission_tier : Int) (added_by : Int)
    (now : Nat) : List RoleRow :=
  if tbl.any (fun r => r.discord_role_id == discord_role_id) then
    tbl.map (fun r =>
      if r.discord_role_id == discord_role_id then
        { r with role_name := role_name, permission_tier := permission_tier }
      else r)
  else
    tbl ++
      [{ discord_role_id := discord_role_id, role_name := role_name,
         permission_tier := permission_tier, added_by := added_by, created_at := now }]

/-- C10: upserting an already-present key updates only the display/role name
and permission tier of the existing row — its `added_by` and `created_at`
survive unchanged — all other rows are untouched, no row is added or
removed, and exactly one row carries that key afterwards; for both
`add_staff_member` and `add_role_config`. -/
theorem claim_C10 (stbl : List StaffRow) (rtbl : List RoleRow)
    (uid rid : Int) (dn rn : String) (stier rtier sab rab : Int) (snow rnow : Nat)
    (sr0 : StaffRow) (hsr0 : sr0 ∈ stbl) (hskey : sr0.discord_user_id = uid)
    (hsuniq : (stbl.map (fun r => r.discord_user_id)).Nodup)
    (rr0 : RoleRow) (hrr0 : rr0 ∈ rtbl) (hrkey : rr0.discord_role_id = rid)
    (hruniq : (rtbl.map (fun r => r.discord_role_id)).Nodup) :
    ((add_staff_member stbl uid dn stier sab snow).length = stbl.length ∧
      { sr0 with display_name := dn, permission_tier := stier } ∈
        add_staff_member stbl uid dn stier sab snow ∧
      (∀ r ∈ stbl, r.discord_user_id ≠ uid →
        r ∈ add_staff_member stbl uid dn stier sab snow) ∧
      (add_staff_member stbl uid dn stier sab snow).countP
        (fun r => r.discord_user_id == uid) = 1) ∧
    ((add_role_config rtbl rid rn rtier rab rnow).length = rtbl.length ∧
      { rr0 with role_name := rn, permission_tier := rtier } ∈
        add_role_config rtbl rid rn rtier rab rnow ∧
      (∀ r ∈ rtbl, r.discord_role_id ≠ rid →
        r ∈ add_role_config rtbl rid rn rtier rab rnow) ∧
      (add_role_config rtbl rid rn rtier rab rnow).countP
        (fun r => r.discord_role_id == rid) = 1) := by
  have hsany : stbl.any (fun r => r.discord_user_id == uid) = true :=
    List.any_eq_true.2 ⟨sr0, hsr0, by simp [hskey]⟩
  have hrany : rtbl.any (fun r => r.discord_role_id == rid) = true :=
    List.any_eq_true.2 ⟨rr0, hrr0, by simp [hrkey]⟩
  constructor
  · unfold add_staff_member
    rw [if_pos hsany]
    refine ⟨List.length_map _ _, ?_, ?_, ?_⟩
    · exact List.mem_map.2 ⟨sr0, hsr0, by simp [hskey]⟩
    · intro r hr hne
      exact List.mem_map.2 ⟨r, hr, by simp [hne]⟩
    · rw [List.countP_map]
      have hp : ((fun (r : StaffRow) => r.discord_user_id == uid) ∘ fun (r : StaffRow) =>
          if r.discord_user_id == uid then
            { r with display_name := dn, permission_tier := stier }
          else r) = fun r => r.discord_user_id == uid := by
        funext r
        by_cases h : r.discord_user_id = uid <;> simp [Function.comp, h]
      rw [hp]
      have h1 : uid ∈ stbl.map (fun r => r.discord_user_id) :=
        List.mem_map.2 ⟨sr0, hsr0, hskey⟩
      have h2 := List.nodup_iff_count_le_one.1 hsuniq uid
      have h3 := List.count_pos_iff_mem.2 h1
      have h4 : (stbl.map (fun r => r.discord_user_id)).count uid =
          stbl.countP (fun r => r.discord_user_id == uid) := by
        rw [List.count, List.countP_map]
        rfl
      omega
  · unfold add_role_config
    rw [if_pos hrany]
    refine ⟨List.length_map _ _, ?_, ?_, ?_⟩
    · exact List.mem_map.2 ⟨rr0, hrr0, by simp [hrkey]⟩
    · intro r hr hne
      exact List.mem_map.2 ⟨r, hr, by simp [hne]⟩
    · rw [List.countP_map]
      have hp : ((fun (r : RoleRow) => r.discord_role_id == rid) ∘ fun (r : RoleRow) =>
          if r.discord_role_id == rid then
            { r with role_name := rn, permission_tier := rtier }
          else r) = fun r => r.discord_role_id == rid := by
        funext r
        by_cases h : r.discord_role_id = rid <;> simp [Function.comp, h]
      rw [hp]
      have h1 : rid ∈ rtbl.map (fun r => r.discord_role_id) :=
        List.mem_map.2 ⟨rr0, hrr0, hrkey⟩
      have h2 := List.nodup_iff_count_le_one.1 hruniq rid
      have h3 := List.count_pos_iff_mem.2 h1
      have h4 : (rtbl.map (fun r => r.discord_role_id)).count rid =
          rtbl.countP (fun r => r.discord_role_id == rid) := by
        rw [List.count, List.countP_map]
        rfl
      omega

theorem claim_C10_witness :
    ((add_staff_member [⟨7, "Old", 1, 2, 11⟩] 7 "New" 3 99 44).length =
        ([⟨7, "Old", 1, 2, 11⟩] : List StaffRow).length ∧
      ({ (⟨7, "Old", 1, 2, 11⟩ : StaffRow) with display_name := "New", permission_tier := 3 } ∈
        add_staff_member [⟨7, "Old", 1, 2, 11⟩] 7 "New" 3 99 44) ∧
      (∀ r ∈ ([⟨7, "Old", 1, 2, 11⟩] : List StaffRow), r.discord_user_id ≠ 7 →
        r ∈ add_staff_member [⟨7, "Old", 1, 2, 11⟩] 7 "New" 3 99 44) ∧
      (add_staff_member [⟨7, "Old", 1, 2, 11⟩] 7 "New" 3 99 44).countP
        (fun r => r.discord_user_id == 7) = 1) ∧
    ((add_role_config [⟨8, "helper", 1, 2, 12⟩] 8 "mod" 2 99 44).length =
        ([⟨8, "helper", 1, 2, 12⟩] : List RoleRow).length ∧
      ({ (⟨8, "helper", 1, 2, 12⟩ : RoleRow) with role_name := "mod", permission_tier := 2 } ∈
        add_role_config [⟨8, "helper", 1, 2, 12⟩] 8 "mod" 2 99 44) ∧
      (∀ r ∈ ([⟨8, "helper", 1, 2, 12⟩] : List RoleRow), r.discord_role_id ≠ 8 →
        r ∈ add_role_config [⟨8, "helper", 1, 2, 12⟩] 8 "mod" 2 99 44) ∧
      (add_role_config [⟨8, "helper", 1, 2, 12⟩] 8 "mod" 2 99 44).countP
        (fun r => r.discord_role_id == 8) = 1) :=
  claim_C10 [⟨7, "Old", 1, 2, 11⟩] [⟨8, "helper", 1, 2, 12⟩] 7 8 "New" "mod" 3 2 99 99 44 44
    ⟨7, "Old", 1, 2, 11⟩ (by simp) rfl (by simp)
    ⟨8, "helper", 1, 2, 12⟩ (by simp) rfl (by simp)

end FallenDashboard
